import Mathlib

/-!
Verification of the gripper command interface `MoveIt2Gripper`
(`src/pymoveit2/moveit2_gripper.py`) of the pepper_robot_pymoveit2
repository.  Joint positions are modelled as exact rationals, joint-state
snapshots as explicit records, and the object's mutable attributes as an
explicit `GripperState` record that every operation threads through.
A Python expression that can raise (list `.index` misses, out-of-range
subscripts) is modelled with `Option`, `none` being the raised exception.
-/

namespace PepperGripper

/-- A joint-state message as consumed by `is_open`: a list of joint names
and the parallel list of positions (`sensor_msgs/JointState`). -/
structure JointSnapshot where
  name : List String
  position : List ℚ
deriving DecidableEq

/-- A single-waypoint fixed trajectory goal.  Modelled from the spec:
`init_follow_joint_trajectory_goal`, `init_dummy_joint_trajectory_from_state`
and `init_joint_state` live in `moveit2.py`, which is not among the sources;
per the spec a fixed goal is a single-waypoint trajectory reaching the target
positions at the given duration.  The duration split into `durationSec` and
`durationNanosec` is taken verbatim from `moveit2_gripper.py` lines 52-55. -/
structure FixedTrajectoryGoal where
  jointNames : List String
  positions : List ℚ
  durationSec : Int
  durationNanosec : Int
deriving DecidableEq

/-- A dispatched goal: either a planning request routed through
`move_to_configuration` (planned mode) or a precomputed fixed trajectory sent
via `_send_goal_async_follow_joint_trajectory` (skip-planning mode). -/
inductive Goal where
  | planned (positions : List ℚ)
  | fixed (g : FixedTrajectoryGoal)
deriving DecidableEq

/-- Source: `duration_sec = math.floor(skip_planning_fixed_motion_duration)`
(line 52 of `moveit2_gripper.py`). -/
def durationSec (d : ℚ) : Int := ⌊d⌋

/-- Python `int()` applied to a rational: truncation toward zero. -/
def pyInt (x : ℚ) : Int := if 0 ≤ x then ⌊x⌋ else ⌈x⌉

/-- Source: `duration_nanosec = int(10e8 * (d - duration_sec))` (lines 53-55 of
`moveit2_gripper.py`); the Python float literal `10e8` is `10 * 10^8 = 10^9`. -/
def durationNanosec (d : ℚ) : Int :=
  pyInt (10 * 10 ^ 8 * (d - (durationSec d : ℚ)))

/-- Builds the precomputed dummy trajectory goal used in skip-planning mode
(lines 56-75 of `moveit2_gripper.py`). -/
def mkFixedGoal (names : List String) (positions : List ℚ) (d : ℚ) :
    FixedTrajectoryGoal :=
  { jointNames := names, positions := positions,
    durationSec := durationSec d, durationNanosec := durationNanosec d }

/-- Source: `self.__open_tolerance = [0.1 * abs(o - c) for o, c in zip(open, closed)]`
(lines 78-80 of `moveit2_gripper.py`). -/
def openToleranceList (openPos closedPos : List ℚ) : List ℚ :=
  (openPos.zip closedPos).map fun oc => 1 / 10 * |oc.1 - oc.2|

/-- The immutable configuration captured by `MoveIt2Gripper.__init__`.
Constructor parameters that are merely routed to the parent class (node,
group name, action name, callback group, flags handled in `moveit2.py`) are
not part of the model. -/
structure GripperConfig where
  jointNames : List String
  openGripperJointPositions : List ℚ
  closedGripperJointPositions : List ℚ
  skipPlanning : Bool
  skipPlanningFixedMotionDuration : ℚ
  openTolerance : List ℚ
  openDummyTrajectoryGoal : Option FixedTrajectoryGoal
  closeDummyTrajectoryGoal : Option FixedTrajectoryGoal
deriving DecidableEq

/-- Constructor `MoveIt2Gripper.__init__` (lines 16-81): validates that the joint-name
list and both position lists have equal length (raising `ValueError`
otherwise, modelled as `Except.error`), precomputes the dummy trajectory
goals when `skip_planning` is set, and derives the open tolerance vector. -/
def mkGripperConfig (jointNames : List String) (openPos closedPos : List ℚ)
    (skipPlanning : Bool) (fixedMotionDuration : ℚ) :
    Except String GripperConfig :=
  if jointNames.length ≠ openPos.length ∨ jointNames.length ≠ closedPos.length then
    Except.error "The length of gripper_joint_names must match the lengths of both open_gripper_joint_positions and closed_gripper_joint_positions."
  else
    Except.ok
      { jointNames := jointNames
        openGripperJointPositions := openPos
        closedGripperJointPositions := closedPos
        skipPlanning := skipPlanning
        skipPlanningFixedMotionDuration := fixedMotionDuration
        openTolerance := openToleranceList openPos closedPos
        openDummyTrajectoryGoal :=
          if skipPlanning then some (mkFixedGoal jointNames openPos fixedMotionDuration)
          else none
        closeDummyTrajectoryGoal :=
          if skipPlanning then some (mkFixedGoal jointNames closedPos fixedMotionDuration)
          else none }

/-- The mutable attributes of a `MoveIt2Gripper` object that the claims
observe: the latest joint-state snapshot (`self.joint_state`, fed by the
subscription in the parent class), the lazily cached
`self.__gripper_joint_indices`, and the six inherited attributes nulled out
by `__del_redundant_attributes` (modelled as `Option Unit`, `none` standing
for Python `None`). -/
structure GripperState where
  jointState : Option JointSnapshot
  gripperJointIndices : Option (List Nat)
  moveToPose : Option Unit
  setPoseGoal : Option Unit
  setPositionGoal : Option Unit
  setOrientationGoal : Option Unit
  computeFk : Option Unit
  computeIk : Option Unit
deriving DecidableEq

/-- Method `__del_redundant_attributes` (lines 167-174): sets the six inherited
pose/kinematics attributes to `None`. -/
def delRedundantAttributes (s : GripperState) : GripperState :=
  { s with
    moveToPose := none
    setPoseGoal := none
    setPositionGoal := none
    setOrientationGoal := none
    computeFk := none
    computeIk := none }

/-- The state right after `__init__` returns: no snapshot received yet, no
cached indices, and the redundant attributes nulled out.  Before
`__del_redundant_attributes` runs, the six attributes hold the inherited
bound methods (modelled as `some ()`). -/
def initialGripperState : GripperState :=
  delRedundantAttributes
    { jointState := none
      gripperJointIndices := none
      moveToPose := some ()
      setPoseGoal := some ()
      setPositionGoal := some ()
      setOrientationGoal := some ()
      computeFk := some ()
      computeIk := some () }

/-- Python `list.index`: index of the first occurrence, `none` when the
element is absent (where Python raises `ValueError`). -/
def indexOfName : List String → String → Option Nat
  | [], _ => none
  | m :: rest, n => if m = n then some 0 else (indexOfName rest n).map (· + 1)

/-- The index-building loop of `is_open` (lines 190-193): for each configured
joint name, look up its index in the snapshot's name list; a missing name
raises (propagated as `none`). -/
def computeJointIndices (js : JointSnapshot) : List String → Option (List Nat)
  | [] => some []
  | n :: rest =>
    match indexOfName js.name n, computeJointIndices js rest with
    | some i, some is => some (i :: is)
    | _, _ => none

/-- The cached indices if present, otherwise computed from the snapshot
(lines 190-193). -/
def resolveIndices (cfg : GripperConfig) (cache : Option (List Nat))
    (js : JointSnapshot) : Option (List Nat) :=
  match cache with
  | some idx => some idx
  | none => computeJointIndices js cfg.jointNames

/-- The classification loop of `is_open` (lines 195-207) over the per-joint
triples (snapshot index, open position, tolerance): return `false` at the
first joint whose position deviates from its open position by more than its
tolerance, `true` when all joints pass; an out-of-range subscript raises. -/
def isOpenLoop (js : JointSnapshot) : List (Nat × ℚ × ℚ) → Option Bool
  | [] => some true
  | (jsIdx, o, t) :: rest =>
    match js.position[jsIdx]? with
    | none => none
    | some p => if |p - o| > t then some false else isOpenLoop js rest

/-- The `is_open` property (lines 176-207): `true` when no snapshot has been
received; otherwise resolve (and cache) the joint indices and run the
classification loop.  Returns the boolean together with the updated object
state; `none` is a raised exception. -/
def isOpenCall (cfg : GripperConfig) (s : GripperState) :
    Option (Bool × GripperState) :=
  match s.jointState with
  | none => some (true, s)
  | some js =>
    match resolveIndices cfg s.gripperJointIndices js with
    | none => none
    | some indices =>
      (isOpenLoop js
          (indices.zip (cfg.openGripperJointPositions.zip cfg.openTolerance))).map
        fun b => (b, { s with gripperJointIndices := some indices })

/-- The `is_closed` property (lines 209-215): `return not self.is_open`. -/
def isClosedCall (cfg : GripperConfig) (s : GripperState) :
    Option (Bool × GripperState) :=
  (isOpenCall cfg s).map fun p => (!p.1, p.2)

/-- The goal the open path dispatches (lines 110-115): the precomputed fixed
goal when `skip_planning` is set, otherwise a planning request for the open
configuration; `none` would be an attribute error (unreachable for
configurations built by `mkGripperConfig`). -/
def openGoalOf (cfg : GripperConfig) : Option Goal :=
  if cfg.skipPlanning then cfg.openDummyTrajectoryGoal.map Goal.fixed
  else some (Goal.planned cfg.openGripperJointPositions)

/-- The goal the close path dispatches (lines 126-131). -/
def closeGoalOf (cfg : GripperConfig) : Option Goal :=
  if cfg.skipPlanning then cfg.closeDummyTrajectoryGoal.map Goal.fixed
  else some (Goal.planned cfg.closedGripperJointPositions)

/-- Method `MoveIt2Gripper.open` (lines 101-115).  Result: the goal handed to the
dispatch layer (`none` when the call returned without dispatching) and the
updated state; outer `none` is a raised exception. -/
def openCmd (cfg : GripperConfig) (skipIfNoop : Bool) (s : GripperState) :
    Option (Option Goal × GripperState) :=
  if skipIfNoop then
    match isOpenCall cfg s with
    | none => none
    | some (true, s') => some (none, s')
    | some (false, s') => (openGoalOf cfg).map fun g => (some g, s')
  else (openGoalOf cfg).map fun g => (some g, s)

/-- Method `MoveIt2Gripper.close` (lines 117-131), gated by `is_closed`. -/
def closeCmd (cfg : GripperConfig) (skipIfNoop : Bool) (s : GripperState) :
    Option (Option Goal × GripperState) :=
  if skipIfNoop then
    match isClosedCall cfg s with
    | none => none
    | some (true, s') => some (none, s')
    | some (false, s') => (closeGoalOf cfg).map fun g => (some g, s')
  else (closeGoalOf cfg).map fun g => (some g, s)

/-- Method `MoveIt2Gripper.toggle` (lines 91-99): close with `skip_if_noop=False`
when `is_open` holds, otherwise open with `skip_if_noop=False`. -/
def toggleCmd (cfg : GripperConfig) (s : GripperState) :
    Option (Option Goal × GripperState) :=
  match isOpenCall cfg s with
  | none => none
  | some (true, s') => closeCmd cfg false s'
  | some (false, s') => openCmd cfg false s'

/-- Method `MoveIt2Gripper.__call__` (lines 84-89): identical to `toggle()`. -/
def callCmd (cfg : GripperConfig) (s : GripperState) :
    Option (Option Goal × GripperState) :=
  toggleCmd cfg s

/-- A request on the direct reset channel, as produced by `reset_open` /
`reset_closed` (lines 133-151): the target joint configuration and the
`sync` flag passed to the parent's `reset_controller`. -/
structure ResetRequest where
  jointState : List ℚ
  sync : Bool
deriving DecidableEq

/-- Method `MoveIt2Gripper.reset_open` (lines 133-141).  Modelled from the spec:
`reset_controller` is defined in `moveit2.py`, which is not among the
sources; per the spec it issues a direct state reset through an external
reset-capable channel, and the object state observed by the claims is left
untouched (the spec names `ExecutionState` and the cached index map as the
only mutable shared state). -/
def resetOpenCmd (cfg : GripperConfig) (sync : Bool) (s : GripperState) :
    ResetRequest × GripperState :=
  ({ jointState := cfg.openGripperJointPositions, sync := sync }, s)

/-- Method `MoveIt2Gripper.reset_closed` (lines 143-151); see `resetOpenCmd`. -/
def resetClosedCmd (cfg : GripperConfig) (sync : Bool) (s : GripperState) :
    ResetRequest × GripperState :=
  ({ jointState := cfg.closedGripperJointPositions, sync := sync }, s)

/-- The execution lifecycle states of the in-flight goal (spec §3). -/
inductive ExecutionState where
  | idle
  | dispatching
  | executing
  | succeeded
  | rejected
  | aborted
  | canceled
deriving DecidableEq

/-- Modelled from the spec: the admission gate of
`ignore_new_calls_while_executing` is implemented in `moveit2.py` (the parent
class `MoveIt2`), which is not among the sources.  Per spec §4.3, `admit`
returns `false` (drop) exactly when the flag is set and the current execution
state is `Dispatching` or `Executing`. -/
def admission (ignoreNewCallsWhileExecuting : Bool) (st : ExecutionState) :
    Bool :=
  !(ignoreNewCallsWhileExecuting &&
    (decide (st = ExecutionState.dispatching) ||
     decide (st = ExecutionState.executing)))

/-- Modelled from the spec: dispatching a goal through the admission gate.
Per spec §4.3-§4.4, an admitted dispatch transitions `ExecutionState` to
`Dispatching`; a dropped one leaves the state unchanged, dispatches nothing,
queues nothing and raises nothing (the function is total). -/
def gatedDispatch (ignoreNewCallsWhileExecuting : Bool) (st : ExecutionState)
    (g : Goal) : Option Goal × ExecutionState :=
  if admission ignoreNewCallsWhileExecuting st then
    (some g, ExecutionState.dispatching)
  else (none, st)

/-- The six attributes nulled out by `__del_redundant_attributes` are all
`None`. -/
def redundantCleared (s : GripperState) : Prop :=
  s.moveToPose = none ∧ s.setPoseGoal = none ∧ s.setPositionGoal = none ∧
  s.setOrientationGoal = none ∧ s.computeFk = none ∧ s.computeIk = none

instance (s : GripperState) : Decidable (redundantCleared s) := by
  unfold redundantCleared; infer_instance

/-- The scenario configuration from the spec: a single joint `j1` with open
position `0` and closed position `1`, planned mode, default fixed motion
duration `0.5`. -/
def exampleConfig : GripperConfig :=
  { jointNames := ["j1"]
    openGripperJointPositions := [0]
    closedGripperJointPositions := [1]
    skipPlanning := false
    skipPlanningFixedMotionDuration := 1 / 2
    openTolerance := openToleranceList [0] [1]
    openDummyTrajectoryGoal := none
    closeDummyTrajectoryGoal := none }

/-- An object state that has received the snapshot `name=["j1"],
position=[p]` and has no cached indices. -/
def exampleState (p : ℚ) : GripperState :=
  { jointState := some { name := ["j1"], position := [p] }
    gripperJointIndices := none
    moveToPose := none, setPoseGoal := none, setPositionGoal := none
    setOrientationGoal := none, computeFk := none, computeIk := none }

/-- The classification loop evaluates, when every snapshot index is in
range, to the conjunction of the per-joint tolerance checks. -/
theorem isOpenLoop_eq_all (js : JointSnapshot) :
    ∀ l : List (Nat × ℚ × ℚ), (∀ p ∈ l, p.1 < js.position.length) →
      isOpenLoop js l =
        some (l.all fun p => !decide (p.2.2 < |js.position.getD p.1 0 - p.2.1|)) := by
  intro l
  induction l with
  | nil => intro _; rfl
  | cons hd tl ih =>
    intro h
    obtain ⟨jsIdx, o, t⟩ := hd
    have hlt : jsIdx < js.position.length := h _ (List.mem_cons_self _ _)
    have hget : js.position[jsIdx]? = some js.position[jsIdx] :=
      List.getElem?_eq_getElem hlt
    have hgd : js.position.getD jsIdx 0 = js.position[jsIdx] :=
      List.getD_eq_getElem _ _ hlt
    by_cases hc : t < |js.position[jsIdx] - o|
    · simp [isOpenLoop, hget, hgd, hc, gt_iff_lt]
    · simp [isOpenLoop, hget, hgd, hc, gt_iff_lt,
        ih fun p hp => h p (List.mem_cons_of_mem _ hp)]

/-- Claim C1: with no snapshot, `is_open` returns `true`; with a snapshot,
it returns `false` iff some configured joint deviates from its open position
by more than its tolerance, and `true` otherwise. -/
theorem gripper_c1 (cfg : GripperConfig) (s : GripperState) :
    (s.jointState = none → isOpenCall cfg s = some (true, s)) ∧
    (∀ js indices, s.jointState = some js →
      resolveIndices cfg s.gripperJointIndices js = some indices →
      indices.length = cfg.jointNames.length →
      cfg.openGripperJointPositions.length = cfg.jointNames.length →
      cfg.openTolerance.length = cfg.jointNames.length →
      (∀ j ∈ indices, j < js.position.length) →
      ∃ b, isOpenCall cfg s =
          some (b, { s with gripperJointIndices := some indices }) ∧
        (b = false ↔ ∃ i, ∃ _hi : i < cfg.jointNames.length,
          cfg.openTolerance.getD i 0 <
            |js.position.getD (indices.getD i 0) 0 -
              cfg.openGripperJointPositions.getD i 0|)) := by
  constructor
  · intro h
    simp [isOpenCall, h]
  · intro js indices hjs hres hleni hleno hlent hrange
    have hmem : ∀ p ∈ indices.zip
        (cfg.openGripperJointPositions.zip cfg.openTolerance),
        p.1 < js.position.length := by
      intro p hp
      exact hrange _ (List.of_mem_zip hp).1
    have hloop := isOpenLoop_eq_all js _ hmem
    have hcall : isOpenCall cfg s =
        some ((indices.zip
            (cfg.openGripperJointPositions.zip cfg.openTolerance)).all
            fun p => !decide (p.2.2 < |js.position.getD p.1 0 - p.2.1|),
          { s with gripperJointIndices := some indices }) := by
      simp [isOpenCall, hjs, hres, hloop]
    have hlenl : (indices.zip
        (cfg.openGripperJointPositions.zip cfg.openTolerance)).length =
        cfg.jointNames.length := by
      simp [List.length_zip, hleni, hleno, hlent]
    refine ⟨_, hcall, ?_⟩
    constructor
    · intro hb
      rw [List.all_eq_false] at hb
      obtain ⟨p, hpl, hp⟩ := hb
      obtain ⟨i, hil, hpi⟩ := List.mem_iff_getElem.mp hpl
      have hin : i < cfg.jointNames.length := hlenl ▸ hil
      have hii : i < indices.length := hleni ▸ hin
      have hio : i < cfg.openGripperJointPositions.length := hleno ▸ hin
      have hit : i < cfg.openTolerance.length := hlent ▸ hin
      have hpv : p = (indices[i], cfg.openGripperJointPositions[i],
          cfg.openTolerance[i]) := by
        rw [← hpi]
        simp [List.getElem_zip]
      subst hpv
      simp only [Bool.not_eq_true, Bool.not_eq_false', decide_eq_true_eq] at hp
      refine ⟨i, hin, ?_⟩
      rw [List.getD_eq_getElem _ _ hit, List.getD_eq_getElem _ _ hii,
        List.getD_eq_getElem _ _ hio]
      exact hp
    · rintro ⟨i, hin, hlt⟩
      rw [List.all_eq_false]
      have hii : i < indices.length := hleni ▸ hin
      have hio : i < cfg.openGripperJointPositions.length := hleno ▸ hin
      have hit : i < cfg.openTolerance.length := hlent ▸ hin
      have hil : i < (indices.zip
          (cfg.openGripperJointPositions.zip cfg.openTolerance)).length :=
        hlenl ▸ hin
      have hji : indices[i] < js.position.length :=
        hrange _ (List.getElem_mem hii)
      rw [List.getD_eq_getElem _ _ hit, List.getD_eq_getElem _ _ hii,
        List.getD_eq_getElem _ _ hio, List.getD_eq_getElem _ _ hji] at hlt
      refine ⟨(indices.zip
          (cfg.openGripperJointPositions.zip cfg.openTolerance))[i],
        List.getElem_mem _, ?_⟩
      simp only [List.getElem_zip]
      rw [List.getD_eq_getElem _ _ hji]
      simp [hlt]

/-- Claim C1 witness: the scenario configuration with snapshot position
`0.5` classifies as not open, through `gripper_c1` itself. -/
theorem gripper_c1_witness :
    ∃ b, isOpenCall exampleConfig (exampleState (1/2)) =
        some (b, { exampleState (1/2) with gripperJointIndices := some [0] }) ∧
      (b = false ↔ ∃ i, ∃ _hi : i < exampleConfig.jointNames.length,
        exampleConfig.openTolerance.getD i 0 <
          |(({ name := ["j1"], position := [1/2] } : JointSnapshot)).position.getD
              (([0] : List Nat).getD i 0) 0 -
            exampleConfig.openGripperJointPositions.getD i 0|) :=
  (gripper_c1 exampleConfig (exampleState (1/2))).2
    { name := ["j1"], position := [1/2] } [0] rfl
    (by simp [exampleState, resolveIndices, computeJointIndices, indexOfName,
      exampleConfig])
    (by simp [exampleConfig]) (by simp [exampleConfig])
    (by simp [exampleConfig, openToleranceList]) (by simp)

/-- Claim C2: construction succeeds exactly when the joint-name list and the
two position lists have the same length; a mismatch raises `ValueError`
synchronously and prevents construction. -/
theorem gripper_c2 (names : List String) (o c : List ℚ) (sp : Bool) (d : ℚ) :
    ((mkGripperConfig names o c sp d).isOk = true ↔
      (names.length = o.length ∧ names.length = c.length)) ∧
    (¬(names.length = o.length ∧ names.length = c.length) →
      mkGripperConfig names o c sp d = Except.error
        "The length of gripper_joint_names must match the lengths of both open_gripper_joint_positions and closed_gripper_joint_positions.") := by
  by_cases h : names.length = o.length ∧ names.length = c.length
  · refine ⟨?_, fun hc => absurd h hc⟩
    have hcond : ¬(names.length ≠ o.length ∨ names.length ≠ c.length) := by
      push_neg
      exact ⟨h.1, h.2⟩
    simp only [mkGripperConfig, if_neg hcond]
    simp only [Except.isOk, Except.toBool]
    simp only [eq_self_iff_true, true_iff]
    exact ⟨h.1, h.2⟩
  · have h' : names.length ≠ o.length ∨ names.length ≠ c.length := by
      by_contra hcon
      push_neg at hcon
      exact h ⟨hcon.1, hcon.2⟩
    constructor
    · simp only [mkGripperConfig, if_pos h']
      simp [Except.isOk, Except.toBool, h]
    · intro _
      simp only [mkGripperConfig, if_pos h']

/-- Claim C2 witness: a one-name, zero-open-positions configuration fails
construction with the `ValueError`, through `gripper_c2` itself. -/
theorem gripper_c2_witness :
    mkGripperConfig ["j1"] [] [0] false 0 = Except.error
      "The length of gripper_joint_names must match the lengths of both open_gripper_joint_positions and closed_gripper_joint_positions." :=
  (gripper_c2 ["j1"] [] [0] false 0).2 (by simp)

/-- Claim C3: the derived tolerance is `0.1 * |open[i] - closed[i]|` for
every joint, and the spec scenario (one joint, open `0`, closed `1`) yields
tolerance `[0.1]`, `is_open = true` at position `0.05`, and
`is_open = false` with `is_closed = true` at position `0.5`. -/
theorem gripper_c3 :
    (∀ names (o c : List ℚ) sp d cfg,
      mkGripperConfig names o c sp d = Except.ok cfg →
      ∀ i, i < cfg.jointNames.length →
        cfg.openTolerance.getD i 0 = 1 / 10 * |o.getD i 0 - c.getD i 0|) ∧
    (∃ cfg, mkGripperConfig ["j1"] [0] [1] false (1/2) = Except.ok cfg ∧
      cfg.openTolerance = [1/10] ∧
      (isOpenCall cfg (exampleState (1/20))).map Prod.fst = some true ∧
      (isOpenCall cfg (exampleState (1/2))).map Prod.fst = some false ∧
      (isClosedCall cfg (exampleState (1/2))).map Prod.fst = some true) := by
  constructor
  · intro names o c sp d cfg hmk i hi
    unfold mkGripperConfig at hmk
    split at hmk
    · exact absurd hmk (by simp)
    · next hcond =>
      have hcfg := Except.ok.inj hmk
      subst hcfg
      push_neg at hcond
      simp only at hi ⊢
      have hio : i < o.length := hcond.1 ▸ hi
      have hic : i < c.length := hcond.2 ▸ hi
      have hiz : i < (o.zip c).length := by
        simp [List.length_zip, hio, hic]
      have him : i < ((o.zip c).map
          fun oc => 1 / 10 * |oc.1 - oc.2|).length := by
        simpa using hiz
      rw [openToleranceList, List.getD_eq_getElem _ _ him,
        List.getD_eq_getElem _ _ hio, List.getD_eq_getElem _ _ hic]
      simp [List.getElem_zip]
  · refine ⟨exampleConfig, ?_, ?_, ?_, ?_, ?_⟩
    · norm_num [mkGripperConfig, exampleConfig]
    · norm_num [exampleConfig, openToleranceList]
    · norm_num [isOpenCall, resolveIndices, computeJointIndices, indexOfName,
        isOpenLoop, exampleConfig, exampleState, openToleranceList, abs_le]
    · norm_num [isOpenCall, resolveIndices, computeJointIndices, indexOfName,
        isOpenLoop, exampleConfig, exampleState, openToleranceList, lt_abs]
    · norm_num [isClosedCall, isOpenCall, resolveIndices, computeJointIndices,
        indexOfName, isOpenLoop, exampleConfig, exampleState,
        openToleranceList, lt_abs]

/-- Claim C3 witness: the tolerance formula instantiated at the scenario
configuration, through `gripper_c3` itself. -/
theorem gripper_c3_witness :
    exampleConfig.openTolerance.getD 0 0 =
      1 / 10 * |([0] : List ℚ).getD 0 0 - ([1] : List ℚ).getD 0 0| :=
  gripper_c3.1 ["j1"] [0] [1] false (1/2) exampleConfig
    (by norm_num [mkGripperConfig, exampleConfig]) 0
    (by simp [exampleConfig])

/-- Claim C4: in every state, including the no-feedback state, `is_closed`
returns exactly the negation of `is_open` (raising exactly when `is_open`
raises); the classifier is binary, with no third value. -/
theorem gripper_c4 (cfg : GripperConfig) (s : GripperState) :
    (∀ b s', isOpenCall cfg s = some (b, s') →
      isClosedCall cfg s = some (!b, s')) ∧
    (isOpenCall cfg s = none → isClosedCall cfg s = none) ∧
    (s.jointState = none → isClosedCall cfg s = some (false, s)) := by
  refine ⟨?_, ?_, ?_⟩
  · intro b s' h
    simp [isClosedCall, h]
  · intro h
    simp [isClosedCall, h]
  · intro h
    simp [isClosedCall, isOpenCall, h]

/-- Claim C4 witness: at snapshot position `0.5` the scenario gripper has
`is_open = false` and `is_closed = true`, and with no feedback `is_closed`
is `false`, both through `gripper_c4` itself. -/
theorem gripper_c4_witness :
    isClosedCall exampleConfig (exampleState (1/2)) =
      some (!false,
        { exampleState (1/2) with gripperJointIndices := some [0] }) ∧
    isClosedCall exampleConfig initialGripperState =
      some (false, initialGripperState) :=
  ⟨(gripper_c4 exampleConfig (exampleState (1/2))).1 false _
      (by norm_num [isOpenCall, resolveIndices, computeJointIndices,
        indexOfName, isOpenLoop, exampleConfig, exampleState,
        openToleranceList, lt_abs]),
    (gripper_c4 exampleConfig initialGripperState).2.2 rfl⟩

/-- Claim C5: `open(skip_if_noop=true)` on an already-open gripper
dispatches nothing; `open(skip_if_noop=false)` always hands the open goal
to the dispatch layer regardless of state; `close` is symmetric, gated by
`is_closed`; and every configuration built by `__init__` has both goals
available to dispatch. -/
theorem gripper_c5 :
    (∀ cfg s s', isOpenCall cfg s = some (true, s') →
      openCmd cfg true s = some (none, s')) ∧
    (∀ cfg s, openCmd cfg false s =
      (openGoalOf cfg).map fun g => (some g, s)) ∧
    (∀ cfg s s', isClosedCall cfg s = some (true, s') →
      closeCmd cfg true s = some (none, s')) ∧
    (∀ cfg s, closeCmd cfg false s =
      (closeGoalOf cfg).map fun g => (some g, s)) ∧
    (∀ names o c sp d cfg, mkGripperConfig names o c sp d = Except.ok cfg →
      (openGoalOf cfg).isSome = true ∧ (closeGoalOf cfg).isSome = true) := by
  refine ⟨?_, ?_, ?_, ?_, ?_⟩
  · intro cfg s s' h
    simp [openCmd, h]
  · intro cfg s
    simp [openCmd]
  · intro cfg s s' h
    simp [closeCmd, h]
  · intro cfg s
    simp [closeCmd]
  · intro names o c sp d cfg hmk
    unfold mkGripperConfig at hmk
    split at hmk
    · exact absurd hmk (by simp)
    · have hcfg := Except.ok.inj hmk
      subst hcfg
      constructor
      · by_cases hsp : sp <;> simp [openGoalOf, hsp]
      · by_cases hsp : sp <;> simp [closeGoalOf, hsp]

/-- Claim C5 witness: at snapshot position `0.05` the scenario gripper is
open, so `open(skip_if_noop=true)` dispatches nothing, and the constructed
configuration has both dispatch goals, through `gripper_c5` itself. -/
theorem gripper_c5_witness :
    openCmd exampleConfig true (exampleState (1/20)) =
      some (none, { exampleState (1/20) with gripperJointIndices := some [0] }) ∧
    (openGoalOf exampleConfig).isSome = true ∧
    (closeGoalOf exampleConfig).isSome = true :=
  ⟨gripper_c5.1 exampleConfig (exampleState (1/20)) _
      (by norm_num [isOpenCall, resolveIndices, computeJointIndices,
        indexOfName, isOpenLoop, exampleConfig, exampleState,
        openToleranceList, abs_le]),
    gripper_c5.2.2.2.2 ["j1"] [0] [1] false (1/2) exampleConfig
      (by norm_num [mkGripperConfig, exampleConfig])⟩

/-- Claim C6: `toggle()` dispatches the close goal when `is_open` holds and
the open goal otherwise, always dispatching (no skip-if-noop check), and
calling the object as a zero-argument callable is identical to `toggle()`. -/
theorem gripper_c6 (cfg : GripperConfig) (s : GripperState) :
    (∀ s', isOpenCall cfg s = some (true, s') →
      toggleCmd cfg s = (closeGoalOf cfg).map fun g => (some g, s')) ∧
    (∀ s', isOpenCall cfg s = some (false, s') →
      toggleCmd cfg s = (openGoalOf cfg).map fun g => (some g, s')) ∧
    callCmd cfg s = toggleCmd cfg s := by
  refine ⟨?_, ?_, rfl⟩
  · intro s' h
    simp [toggleCmd, h, closeCmd]
  · intro s' h
    simp [toggleCmd, h, openCmd]

/-- Claim C6 witness: at snapshot position `0.5` the scenario gripper is not
open, so `toggle()` dispatches the open goal, through `gripper_c6` itself. -/
theorem gripper_c6_witness :
    toggleCmd exampleConfig (exampleState (1/2)) =
      (openGoalOf exampleConfig).map fun g =>
        (some g, { exampleState (1/2) with gripperJointIndices := some [0] }) :=
  (gripper_c6 exampleConfig (exampleState (1/2))).2.1 _
    (by norm_num [isOpenCall, resolveIndices, computeJointIndices,
      indexOfName, isOpenLoop, exampleConfig, exampleState,
      openToleranceList, lt_abs])

/-- Claim C7: for every non-negative duration `d`, the fixed-goal encoding
splits `d` into the whole-unit component `⌊d⌋` and a nanosecond remainder
representing `d - ⌊d⌋` seconds up to the wire resolution of one nanosecond;
in particular `d = 1.5` encodes to `1` and `500000000` nanoseconds, which is
exactly `0.5` seconds. -/
theorem gripper_c7 :
    (∀ d : ℚ, 0 ≤ d →
      durationSec d = ⌊d⌋ ∧
      (durationNanosec d : ℚ) ≤ (d - ⌊d⌋) * 10 ^ 9 ∧
      (d - ⌊d⌋) * 10 ^ 9 < (durationNanosec d : ℚ) + 1) ∧
    (durationSec (3/2) = 1 ∧ durationNanosec (3/2) = 500000000 ∧
      (500000000 : ℚ) / 10 ^ 9 = 1 / 2) := by
  constructor
  · intro d _hd
    have hfr : (0 : ℚ) ≤ d - ⌊d⌋ := by
      have := Int.floor_le d
      linarith
    have harg : (0 : ℚ) ≤ 10 * 10 ^ 8 * (d - (⌊d⌋ : ℚ)) := by
      have : (0 : ℚ) ≤ 10 * 10 ^ 8 := by norm_num
      exact mul_nonneg this hfr
    have hlo := Int.floor_le (10 * 10 ^ 8 * (d - (⌊d⌋ : ℚ)))
    have hhi := Int.lt_floor_add_one (10 * 10 ^ 8 * (d - (⌊d⌋ : ℚ)))
    refine ⟨rfl, ?_, ?_⟩
    · rw [durationNanosec, durationSec, pyInt, if_pos harg]
      nlinarith [hlo]
    · rw [durationNanosec, durationSec, pyInt, if_pos harg]
      nlinarith [hhi]
  · refine ⟨?_, ?_, ?_⟩
    · norm_num [durationSec]
    · have h32 : (⌊(3 / 2 : ℚ)⌋ : ℚ) = 1 := by norm_num
      rw [durationNanosec, durationSec, pyInt]
      rw [h32]
      norm_num
    · norm_num

/-- Claim C7 witness: the duration bounds instantiated at `d = 1.25`,
through `gripper_c7` itself. -/
theorem gripper_c7_witness :
    durationSec (5/4) = ⌊(5/4 : ℚ)⌋ ∧
    (durationNanosec (5/4) : ℚ) ≤ ((5/4 : ℚ) - ⌊(5/4 : ℚ)⌋) * 10 ^ 9 ∧
    ((5/4 : ℚ) - ⌊(5/4 : ℚ)⌋) * 10 ^ 9 < (durationNanosec (5/4) : ℚ) + 1 :=
  gripper_c7.1 (5/4) (by norm_num)

/-- Claim C8: with `ignore_new_calls_while_executing = true`, a command
arriving while the execution state is `Dispatching` or `Executing` is a
silent no-op: nothing is dispatched and the execution state is left
unchanged; the gate is a total function, so nothing is queued and nothing is
raised.  The gate itself is modelled from the spec, since `moveit2.py` is
not among the sources. -/
theorem gripper_c8 (st : ExecutionState) (g : Goal) :
    (st = ExecutionState.dispatching ∨ st = ExecutionState.executing) →
    gatedDispatch true st g = (none, st) := by
  intro h
  rcases h with h | h <;> subst h <;> rfl

/-- Claim C8 witness: an open goal issued while executing is dropped,
through `gripper_c8` itself. -/
theorem gripper_c8_witness :
    gatedDispatch true ExecutionState.executing (Goal.planned [0]) =
      (none, ExecutionState.executing) :=
  gripper_c8 ExecutionState.executing (Goal.planned [0]) (Or.inr rfl)

/-- A name contained in the list has an index. -/
theorem indexOfName_isSome_of_mem :
    ∀ (l : List String) (n : String), n ∈ l →
      (indexOfName l n).isSome = true := by
  intro l
  induction l with
  | nil =>
    intro n hn
    cases hn
  | cons m rest ih =>
    intro n hn
    by_cases hm : m = n
    · simp [indexOfName, hm]
    · have hr : n ∈ rest := by
        rcases List.mem_cons.mp hn with h | h
        · exact absurd h.symm hm
        · exact h
      obtain ⟨i, hi⟩ := Option.isSome_iff_exists.mp (ih n hr)
      simp [indexOfName, hm, hi]

/-- A name absent from the list has no index (Python raises `ValueError`). -/
theorem indexOfName_eq_none_of_not_mem :
    ∀ (l : List String) (n : String), n ∉ l → indexOfName l n = none := by
  intro l
  induction l with
  | nil =>
    intro n _
    rfl
  | cons m rest ih =>
    intro n hn
    have hm : m ≠ n := fun h => hn (h ▸ List.mem_cons_self m rest)
    have hr : n ∉ rest := fun h => hn (List.mem_cons_of_mem _ h)
    simp [indexOfName, hm, ih n hr]

/-- When every configured name occurs in the snapshot, the index map is
built without raising. -/
theorem computeJointIndices_isSome (js : JointSnapshot) :
    ∀ names : List String, (∀ n ∈ names, n ∈ js.name) →
      (computeJointIndices js names).isSome = true := by
  intro names
  induction names with
  | nil =>
    intro _
    rfl
  | cons n rest ih =>
    intro h
    obtain ⟨i, hi⟩ := Option.isSome_iff_exists.mp
      (indexOfName_isSome_of_mem js.name n (h n (List.mem_cons_self _ _)))
    obtain ⟨is, his⟩ := Option.isSome_iff_exists.mp
      (ih fun m hm => h m (List.mem_cons_of_mem _ hm))
    simp [computeJointIndices, hi, his]

/-- A configured name absent from the snapshot makes the index map fail. -/
theorem computeJointIndices_eq_none (js : JointSnapshot) :
    ∀ (names : List String) (n : String), n ∈ names → n ∉ js.name →
      computeJointIndices js names = none := by
  intro names
  induction names with
  | nil =>
    intro n hn _
    cases hn
  | cons m rest ih =>
    intro n hn hmem
    rcases List.mem_cons.mp hn with h | h
    · subst h
      simp [computeJointIndices, indexOfName_eq_none_of_not_mem js.name n hmem]
    · cases hx : indexOfName js.name m <;>
        simp [computeJointIndices, hx, ih n h hmem]

/-- Claim C9: on the first snapshot-bearing call the index of each
configured joint name is looked up in the snapshot; when every configured
name occurs in the snapshot the lookup always succeeds (the error branch is
unreachable), while a configured name absent from the snapshot makes the
lookup fail, so `is_open` raises instead of returning a classification. -/
theorem gripper_c9 (cfg : GripperConfig) (js : JointSnapshot)
    (s : GripperState) (hjs : s.jointState = some js)
    (hcache : s.gripperJointIndices = none) :
    ((∀ n ∈ cfg.jointNames, n ∈ js.name) →
      (computeJointIndices js cfg.jointNames).isSome = true) ∧
    (∀ n ∈ cfg.jointNames, n ∉ js.name →
      computeJointIndices js cfg.jointNames = none ∧
        isOpenCall cfg s = none) := by
  constructor
  · exact computeJointIndices_isSome js cfg.jointNames
  · intro n hn hmem
    have hnone := computeJointIndices_eq_none js cfg.jointNames n hn hmem
    refine ⟨hnone, ?_⟩
    simp [isOpenCall, hjs, resolveIndices, hcache, hnone]

/-- Claim C9 witness: with snapshot names `["j1"]` the lookup for the
scenario configuration succeeds; with snapshot names `["other"]` it fails
and `is_open` raises, both through `gripper_c9` itself. -/
theorem gripper_c9_witness :
    (computeJointIndices { name := ["j1"], position := [0] }
      exampleConfig.jointNames).isSome = true ∧
    (computeJointIndices { name := ["other"], position := [0] }
        exampleConfig.jointNames = none ∧
      isOpenCall exampleConfig
        { jointState := some { name := ["other"], position := [0] }
          gripperJointIndices := none
          moveToPose := none, setPoseGoal := none, setPositionGoal := none
          setOrientationGoal := none, computeFk := none,
          computeIk := none } = none) :=
  ⟨(gripper_c9 exampleConfig { name := ["j1"], position := [0] }
      { jointState := some { name := ["j1"], position := [0] }
        gripperJointIndices := none
        moveToPose := none, setPoseGoal := none, setPositionGoal := none
        setOrientationGoal := none, computeFk := none, computeIk := none }
      rfl rfl).1 (by simp [exampleConfig]),
    (gripper_c9 exampleConfig { name := ["other"], position := [0] }
      { jointState := some { name := ["other"], position := [0] }
        gripperJointIndices := none
        moveToPose := none, setPoseGoal := none, setPositionGoal := none
        setOrientationGoal := none, computeFk := none, computeIk := none }
      rfl rfl).2 "j1" (by simp [exampleConfig]) (by simp)⟩

/-- Calling `is_open` changes the object state at most in the cached index list. -/
theorem isOpenCall_state (cfg : GripperConfig) (s : GripperState)
    (b : Bool) (s' : GripperState) (h : isOpenCall cfg s = some (b, s')) :
    ∃ idx, s' = { s with gripperJointIndices := idx } := by
  obtain ⟨jsOpt, cache, m1, m2, m3, m4, m5, m6⟩ := s
  cases jsOpt with
  | none =>
    simp only [isOpenCall, Option.some.injEq, Prod.mk.injEq] at h
    exact ⟨cache, h.2.symm⟩
  | some js =>
    simp only [isOpenCall] at h
    cases hres : resolveIndices cfg cache js with
    | none =>
      simp [hres] at h
    | some indices =>
      simp only [hres] at h
      cases hloop : isOpenLoop js
          (indices.zip (cfg.openGripperJointPositions.zip cfg.openTolerance)) with
      | none =>
        simp [hloop] at h
      | some bb =>
        simp only [hloop, Option.map_some, Option.map_some',
          Option.some.injEq, Prod.mk.injEq] at h
        exact ⟨some indices, h.2.symm⟩

/-- Calling `is_closed` changes the object state at most in the cached index list. -/
theorem isClosedCall_state (cfg : GripperConfig) (s : GripperState)
    (b : Bool) (s' : GripperState) (h : isClosedCall cfg s = some (b, s')) :
    ∃ idx, s' = { s with gripperJointIndices := idx } := by
  unfold isClosedCall at h
  cases hop : isOpenCall cfg s with
  | none =>
    simp [hop] at h
  | some p =>
    simp only [hop, Option.map_some, Option.map_some',
      Option.some.injEq, Prod.mk.injEq] at h
    obtain ⟨idx, hidx⟩ := isOpenCall_state cfg s p.1 p.2 (by rw [hop])
    exact ⟨idx, h.2 ▸ hidx⟩

/-- Calling `open` changes the object state at most in the cached index list. -/
theorem openCmd_state (cfg : GripperConfig) (noop : Bool) (s : GripperState)
    (r : Option Goal) (s' : GripperState)
    (h : openCmd cfg noop s = some (r, s')) :
    ∃ idx, s' = { s with gripperJointIndices := idx } := by
  unfold openCmd at h
  by_cases hn : noop
  · rw [if_pos hn] at h
    cases hop : isOpenCall cfg s with
    | none =>
      simp [hop] at h
    | some p =>
      obtain ⟨bb, s1⟩ := p
      rw [hop] at h
      obtain ⟨idx, hidx⟩ := isOpenCall_state cfg s bb s1 hop
      cases bb with
      | true =>
        simp only [Option.some.injEq, Prod.mk.injEq] at h
        exact ⟨idx, h.2 ▸ hidx⟩
      | false =>
        cases hg : openGoalOf cfg with
        | none =>
          simp [hg] at h
        | some g =>
          simp only [hg, Option.map_some, Option.map_some',
            Option.some.injEq, Prod.mk.injEq] at h
          exact ⟨idx, h.2 ▸ hidx⟩
  · rw [if_neg hn] at h
    cases hg : openGoalOf cfg with
    | none =>
      simp [hg] at h
    | some g =>
      simp only [hg, Option.map_some, Option.map_some',
        Option.some.injEq, Prod.mk.injEq] at h
      exact ⟨s.gripperJointIndices, h.2 ▸ rfl⟩

/-- Calling `close` changes the object state at most in the cached index list. -/
theorem closeCmd_state (cfg : GripperConfig) (noop : Bool) (s : GripperState)
    (r : Option Goal) (s' : GripperState)
    (h : closeCmd cfg noop s = some (r, s')) :
    ∃ idx, s' = { s with gripperJointIndices := idx } := by
  unfold closeCmd at h
  by_cases hn : noop
  · rw [if_pos hn] at h
    cases hop : isClosedCall cfg s with
    | none =>
      simp [hop] at h
    | some p =>
      obtain ⟨bb, s1⟩ := p
      rw [hop] at h
      obtain ⟨idx, hidx⟩ := isClosedCall_state cfg s bb s1 hop
      cases bb with
      | true =>
        simp only [Option.some.injEq, Prod.mk.injEq] at h
        exact ⟨idx, h.2 ▸ hidx⟩
      | false =>
        cases hg : closeGoalOf cfg with
        | none =>
          simp [hg] at h
        | some g =>
          simp only [hg, Option.map_some, Option.map_some',
            Option.some.injEq, Prod.mk.injEq] at h
          exact ⟨idx, h.2 ▸ hidx⟩
  · rw [if_neg hn] at h
    cases hg : closeGoalOf cfg with
    | none =>
      simp [hg] at h
    | some g =>
      simp only [hg, Option.map_some, Option.map_some',
        Option.some.injEq, Prod.mk.injEq] at h
      exact ⟨s.gripperJointIndices, h.2 ▸ rfl⟩

/-- Calling `toggle` changes the object state at most in the cached index list. -/
theorem toggleCmd_state (cfg : GripperConfig) (s : GripperState)
    (r : Option Goal) (s' : GripperState)
    (h : toggleCmd cfg s = some (r, s')) :
    ∃ idx, s' = { s with gripperJointIndices := idx } := by
  unfold toggleCmd at h
  cases hop : isOpenCall cfg s with
  | none =>
    simp [hop] at h
  | some p =>
    obtain ⟨bb, s1⟩ := p
    rw [hop] at h
    obtain ⟨i1, hs1⟩ := isOpenCall_state cfg s bb s1 hop
    cases bb with
    | true =>
      obtain ⟨i2, hs2⟩ := closeCmd_state cfg false s1 r s' h
      subst hs1
      exact ⟨i2, hs2⟩
    | false =>
      obtain ⟨i2, hs2⟩ := openCmd_state cfg false s1 r s' h
      subst hs1
      exact ⟨i2, hs2⟩

/-- A cache update preserves the nulled-out redundant attributes. -/
theorem redundantCleared_update (s : GripperState) (idx : Option (List Nat))
    (h : redundantCleared s) :
    redundantCleared { s with gripperJointIndices := idx } := by
  obtain ⟨h1, h2, h3, h4, h5, h6⟩ := h
  exact ⟨h1, h2, h3, h4, h5, h6⟩

/-- Claim C10: immediately after construction the six inherited
pose/kinematics operations are `None`, and no public gripper operation
(`open`, `close`, `toggle`, the zero-argument call, `reset_open`,
`reset_closed`) restores any of them: the nulled-out state is an invariant
of the interface. -/
theorem gripper_c10 :
    redundantCleared initialGripperState ∧
    (∀ s, redundantCleared (delRedundantAttributes s)) ∧
    (∀ cfg noop s r s', redundantCleared s →
      openCmd cfg noop s = some (r, s') → redundantCleared s') ∧
    (∀ cfg noop s r s', redundantCleared s →
      closeCmd cfg noop s = some (r, s') → redundantCleared s') ∧
    (∀ cfg s r s', redundantCleared s →
      toggleCmd cfg s = some (r, s') → redundantCleared s') ∧
    (∀ cfg s r s', redundantCleared s →
      callCmd cfg s = some (r, s') → redundantCleared s') ∧
    (∀ cfg sync s, redundantCleared s →
      redundantCleared (resetOpenCmd cfg sync s).2) ∧
    (∀ cfg sync s, redundantCleared s →
      redundantCleared (resetClosedCmd cfg sync s).2) := by
  refine ⟨⟨rfl, rfl, rfl, rfl, rfl, rfl⟩, ?_, ?_, ?_, ?_, ?_, ?_, ?_⟩
  · intro s
    exact ⟨rfl, rfl, rfl, rfl, rfl, rfl⟩
  · intro cfg noop s r s' hc h
    obtain ⟨idx, rfl⟩ := openCmd_state cfg noop s r s' h
    exact redundantCleared_update s idx hc
  · intro cfg noop s r s' hc h
    obtain ⟨idx, rfl⟩ := closeCmd_state cfg noop s r s' h
    exact redundantCleared_update s idx hc
  · intro cfg s r s' hc h
    obtain ⟨idx, rfl⟩ := toggleCmd_state cfg s r s' h
    exact redundantCleared_update s idx hc
  · intro cfg s r s' hc h
    obtain ⟨idx, rfl⟩ := toggleCmd_state cfg s r s' h
    exact redundantCleared_update s idx hc
  · intro cfg sync s hc
    exact hc
  · intro cfg sync s hc
    exact hc

/-- Claim C10 witness: the invariant holds after construction and is kept by
a concrete `open(skip_if_noop=true)` call on an open gripper, through
`gripper_c10` itself. -/
theorem gripper_c10_witness :
    redundantCleared initialGripperState ∧
    redundantCleared
      ({ exampleState (1/20) with gripperJointIndices := some [0] }) :=
  ⟨gripper_c10.1,
    gripper_c10.2.2.1 exampleConfig true (exampleState (1/20)) none
      ({ exampleState (1/20) with gripperJointIndices := some [0] })
      ⟨rfl, rfl, rfl, rfl, rfl, rfl⟩
      (by
        have h20 : ¬((1 : ℚ)/10 < |(1 : ℚ)/20|) := by
          rw [not_lt, abs_le]
          constructor <;> norm_num
        norm_num [openCmd, isOpenCall, resolveIndices, computeJointIndices,
          indexOfName, isOpenLoop, exampleConfig, exampleState,
          openToleranceList, h20])⟩

end PepperGripper
